import Mathlib

set_option linter.unusedVariables false
set_option linter.unnecessarySeqFocus false

namespace Flagger

/-!
Shallow embedding of the flagger CloudWatch metric provider
(pkg/metrics/providers/cloudwatch.go), together with a model of the
canary reconciliation scheduler described by the specification; the
scheduler implementation is outside the excerpt and only its daemonset
tests appear in the source, so that part is modelled from the spec.
-/

/-- Go float64 metric values as an opaque value domain: the provider code
never computes with metric values, it only dereferences pointers (a nil
pointer becomes 0) and forwards the value unchanged, so rationals serve
as the carrier, giving a zero and decidable equality. -/
abbrev Float64 := Rat

/-- Go pointer to float64; nil is none. -/
abbrev PtrFloat64 := Option Float64

/-- aws.Float64Value: dereference a float64 pointer, nil yields 0. -/
def Float64Value (p : PtrFloat64) : Float64 := p.getD 0

/-- Constant cloudWatchMaxRetries of cloudwatch.go. -/
def cloudWatchMaxRetries : Nat := 3

/-- Constant cloudWatchStartDeltaMultiplierOnMetricInterval of cloudwatch.go. -/
def cloudWatchStartDeltaMultiplierOnMetricInterval : Int := 10

/-- http.StatusBadRequest. -/
def statusBadRequest : Int := 400

/-- One element of the unmarshaled query array (cloudwatch.MetricDataQuery).
The provider treats the parsed queries as opaque payload forwarded
unchanged to GetMetricData, so the element type is kept abstract. -/
abbrev MetricDataQuery := String

/-- Input of the GetMetricData call: the fields the provider fills that do
not depend on the wall clock (EndTime and StartTime come from time.Now and
startDelta and are not modelled). MaxDatapoints is a pointer in the Go
struct, none when the caller leaves it unset. -/
structure GetMetricDataInput where
  MetricDataQueries : List MetricDataQuery
  MaxDatapoints : Option Int
  deriving Repr, DecidableEq

/-- One cloudwatch.MetricDataResult: its list of float64 pointers. -/
structure MetricDataResult where
  Values : List PtrFloat64
  deriving Repr, DecidableEq

/-- cloudwatch.GetMetricDataOutput: the result list, plus the rendering
that res.String() produces, interpolated into the no-data error text. -/
structure GetMetricDataOutput where
  MetricDataResults : List MetricDataResult
  render : String
  deriving Repr, DecidableEq

/-- Errors returned by the AWS client: either an awserr.RequestFailure
carrying an HTTP status code, or any other error. -/
inductive AWSError where
  | requestFailure (statusCode : Int) (message : String)
  | generic (message : String)
  deriving Repr, DecidableEq

/-- err.Error(), the text interpolated into provider error messages. -/
def AWSError.errorString : AWSError → String
  | .requestFailure _ m => m
  | .generic m => m

/-- The GetMetricData endpoint as the provider sees it through the
cloudWatchClient interface: a response for every input. -/
abbrev CWClient := GetMetricDataInput → Except AWSError GetMetricDataOutput

/-- What RunQuery returns, plus a flag recording whether the
GetMetricData call was issued at all. -/
structure RunQueryResult where
  value : Float64
  err : Option String
  backendCalled : Bool
  deriving Repr, DecidableEq

/-- RunQuery of cloudwatch.go: unmarshal the query JSON into a query
array (json.Unmarshal is the Go standard library and is a parameter),
call GetMetricData with MaxDatapoints 20, and return the first value of
the first result; an empty result list or an empty first Values list
gives the no-data error. -/
def RunQuery (client : CWClient)
    (unmarshal : String → Except String (List MetricDataQuery))
    (query : String) : RunQueryResult :=
  match unmarshal query with
  | .error e => ⟨0, some ("error unmarshaling query: " ++ e), false⟩
  | .ok cq =>
    match client ⟨cq, some 20⟩ with
    | .error err => ⟨0, some ("error requesting cloudwatch: " ++ err.errorString), true⟩
    | .ok res =>
      match res.MetricDataResults with
      | [] => ⟨0, some ("no values found in response: " ++ res.render), true⟩
      | mr0 :: _ =>
        match mr0.Values with
        | [] => ⟨0, some ("no values found in response: " ++ res.render), true⟩
        | v0 :: _ => ⟨Float64Value v0, none, true⟩

/-- IsOnline of cloudwatch.go: probe GetMetricData with an empty query
list (MaxDatapoints left unset); success, or an awserr.RequestFailure
whose status code is http.StatusBadRequest, means online; every other
error is reported with a non-nil error and false. -/
def IsOnline (client : CWClient) : Bool × Option String :=
  match client ⟨[], none⟩ with
  | .ok _ => (true, none)
  | .error e =>
    match e with
    | .generic m => (false, some ("unexpected error: " ++ m))
    | .requestFailure code m =>
      if code ≠ statusBadRequest then (false, some ("unexpected status code: " ++ m))
      else (true, none)

/-- Go strings.TrimLeft: remove every leading character contained in the
cutset. -/
def goTrimLeft (s cutset : String) : String :=
  ⟨s.data.dropWhile (fun c => decide (c ∈ cutset.data))⟩

/-- Go strings.TrimRight: remove every trailing character contained in
the cutset. -/
def goTrimRight (s cutset : String) : String :=
  ⟨(s.data.reverse.dropWhile (fun c => decide (c ∈ cutset.data))).reverse⟩

/-- The region computation of NewCloudWatchProvider: TrimLeft with cutset
"monitoring." followed by TrimRight with cutset ".amazonaws.com". -/
def regionOf (address : String) : String :=
  goTrimRight (goTrimLeft address "monitoring.") ".amazonaws.com"

/-- The distinct characters of the cutset "monitoring.". -/
def leadingSet : List Char := ['m', 'o', 'n', 'i', 't', 'r', 'g', '.']

/-- The distinct characters of the cutset ".amazonaws.com". -/
def trailingSet : List Char := ['a', 'm', 'z', 'o', 'n', 'w', 's', 'c', '.']

/-- Region derivation as described by character sets: the address with
every leading character belonging to leadingSet removed and then every
trailing character belonging to trailingSet removed. -/
def claimRegion (address : String) : String :=
  ⟨((address.data.dropWhile (fun c => decide (c ∈ leadingSet))).reverse.dropWhile
      (fun c => decide (c ∈ trailingSet))).reverse⟩

/-- The provider value: the Go struct holds a client and startDelta; the
client is built from a session configured with the derived region, the
retry count and the address as endpoint, and those configuration values
are carried here explicitly. -/
structure CloudWatchProvider where
  region : String
  endpoint : String
  maxRetries : Nat
  startDelta : Int
  deriving Repr, DecidableEq

/-- NewCloudWatchProvider of cloudwatch.go. sessionErr models the error
of session.NewSession and parseDuration the result of time.ParseDuration
on metricInterval (both external libraries). In the source both results
are assigned to the same variable err, the second assignment overwriting
the first, so sessionErr never reaches the caller: the constructor fails
exactly when ParseDuration fails, and on success the returned err is the
nil one of the successful ParseDuration. -/
def NewCloudWatchProvider (sessionErr : Option String)
    (parseDuration : Except String Int) (address : String) :
    Except String CloudWatchProvider :=
  match parseDuration with
  | .error e => .error ("error parsing metric interval: " ++ e)
  | .ok md =>
    .ok { region := regionOf address
          endpoint := address
          maxRetries := cloudWatchMaxRetries
          startDelta := cloudWatchStartDeltaMultiplierOnMetricInterval * md }

/-- Whether an Except value is a success. -/
def exceptIsOk : Except ε α → Bool
  | .ok _ => true
  | .error _ => false

namespace Sched

/-- Modelled from the spec: the canary phases of the state machine of
section 4.2. The scheduler and state machine implementation is missing
from the excerpt (only its daemonset tests appear in the source). -/
inductive Phase where
  | Initializing
  | Initialized
  | WaitingPromotion
  | Progressing
  | WaitingOrSkipped
  | Promoting
  | Finalising
  | Succeeded
  | Failed
  | Terminated
  deriving Repr, DecidableEq

/-- Modelled from the spec: the rollout configuration a tick consults
(step size, max weight, max failed checks, mirroring, skip analysis). -/
structure Config where
  stepWeight : Nat
  maxWeight : Nat
  threshold : Nat
  mirror : Bool
  skipAnalysis : Bool
  deriving Repr, DecidableEq

/-- Modelled from the spec: the persisted rollout status a tick reads. -/
structure Status where
  phase : Phase
  failedChecks : Nat
  deriving Repr, DecidableEq

/-- Modelled from the spec: the traffic split the router reports. -/
structure Routes where
  primaryWeight : Nat
  canaryWeight : Nat
  mirrored : Bool
  deriving Repr, DecidableEq

/-- Modelled from the spec: observations gathered for one tick (was a
new spec or config drift detected, did all metric checks pass). -/
structure Obs where
  drift : Bool
  checksPass : Bool
  deriving Repr, DecidableEq

/-- Modelled from the spec: the outcome of one scheduler tick;
checksEvaluated records whether the metric checks were run. -/
structure TickResult where
  status : Status
  routes : Routes
  checksEvaluated : Bool
  deriving Repr, DecidableEq

/-- Modelled from the spec: the non-terminal phases from which a newly
detected drift re-enters Progressing with a full weight and counter
reset. -/
def resettable : Phase → Bool
  | .Initialized => true
  | .Progressing => true
  | .WaitingPromotion => true
  | .WaitingOrSkipped => true
  | .Promoting => true
  | .Finalising => true
  | _ => false

/-- Modelled from the spec: one tick of the canary state machine of
section 4.2. A new drift resets weights to 100/0 and counters to 0 and
restarts Progressing. In Progressing, SkipAnalysis jumps straight to
Promoting without running checks; a failing check increments
failedChecks and triggers rollback once the threshold is reached
(weights reset to 100/0); a passing check resets failedChecks and either
sets the one-tick mirroring prelude (mirror strategy, not yet mirrored,
weight still 0), advances the canary weight by min(step, max-current)
while keeping the pair summing to 100 (clearing the mirror flag on this
first real step), or, once the max weight is reached, moves to
Promoting. Promoting hands over to Finalising; Finalising resets routes
to 100/0 and ends in Succeeded; Failed resets and returns to
Initialized. -/
def tick (cfg : Config) (st : Status) (r : Routes) (o : Obs) : TickResult :=
  if o.drift ∧ resettable st.phase then
    ⟨⟨.Progressing, 0⟩, ⟨100, 0, false⟩, false⟩
  else
    match st.phase with
    | .Initializing => ⟨⟨.Initialized, 0⟩, ⟨100, 0, false⟩, false⟩
    | .Progressing =>
      if cfg.skipAnalysis then
        ⟨⟨.Promoting, st.failedChecks⟩, r, false⟩
      else if o.checksPass = false then
        if cfg.threshold ≤ st.failedChecks + 1 then
          ⟨⟨.Failed, st.failedChecks + 1⟩, ⟨100, 0, false⟩, true⟩
        else
          ⟨⟨.Progressing, st.failedChecks + 1⟩, r, true⟩
      else if cfg.mirror ∧ r.mirrored = false ∧ r.canaryWeight = 0 then
        ⟨⟨.Progressing, 0⟩, ⟨100, 0, true⟩, true⟩
      else if r.mirrored = true ∨ r.canaryWeight < cfg.maxWeight then
        ⟨⟨.Progressing, 0⟩,
          ⟨100 - (r.canaryWeight + min cfg.stepWeight (cfg.maxWeight - r.canaryWeight)),
            r.canaryWeight + min cfg.stepWeight (cfg.maxWeight - r.canaryWeight), false⟩, true⟩
      else
        ⟨⟨.Promoting, 0⟩, r, true⟩
    | .Promoting => ⟨⟨.Finalising, st.failedChecks⟩, r, false⟩
    | .Finalising => ⟨⟨.Succeeded, st.failedChecks⟩, ⟨100, 0, false⟩, false⟩
    | .Failed => ⟨⟨.Initialized, 0⟩, ⟨100, 0, false⟩, false⟩
    | p => ⟨⟨p, st.failedChecks⟩, r, false⟩

end Sched

/-- C1: for every query string whose GetMetricData response contains at
least one MetricDataResult whose Values list is non-empty, RunQuery
returns the first value of the first result as a float64 together with a
nil error, ignoring all other results and values. -/
theorem c1_runQuery_returns_first_value
    (client : CWClient) (unmarshal : String → Except String (List MetricDataQuery))
    (query : String) (cq : List MetricDataQuery) (out : GetMetricDataOutput)
    (mr0 : MetricDataResult) (mrest : List MetricDataResult)
    (v0 : PtrFloat64) (vrest : List PtrFloat64)
    (hu : unmarshal query = .ok cq)
    (hc : client ⟨cq, some 20⟩ = .ok out)
    (hm : out.MetricDataResults = mr0 :: mrest)
    (hv : mr0.Values = v0 :: vrest) :
    RunQuery client unmarshal query = ⟨Float64Value v0, none, true⟩ := by
  simp only [RunQuery, hu, hc, hm, hv]

/-- C1 witness: a concrete client whose response has two results, the
first holding values 3 and 4; RunQuery returns 3 with no error. -/
theorem c1_witness :
    RunQuery (fun _ => .ok ⟨[⟨[some 3, some 4]⟩, ⟨[some 9]⟩], "out"⟩)
      (fun _ => .ok ["q"]) "q" = ⟨3, none, true⟩ :=
  c1_runQuery_returns_first_value _ _ "q" ["q"] ⟨[⟨[some 3, some 4]⟩, ⟨[some 9]⟩], "out"⟩
    ⟨[some 3, some 4]⟩ [⟨[some 9]⟩] (some 3) [some 4] rfl rfl rfl rfl

/-- C2: when GetMetricData succeeds but either the result list is empty
or the first result has an empty Values list, RunQuery returns the
non-nil no-data error with value 0, never consulting any later result. -/
theorem c2_runQuery_no_data_error
    (client : CWClient) (unmarshal : String → Except String (List MetricDataQuery))
    (query : String) (cq : List MetricDataQuery) (out : GetMetricDataOutput)
    (hu : unmarshal query = .ok cq)
    (hc : client ⟨cq, some 20⟩ = .ok out)
    (hempty : out.MetricDataResults = [] ∨
      ∃ mr0 mrest, out.MetricDataResults = mr0 :: mrest ∧ mr0.Values = []) :
    RunQuery client unmarshal query =
      ⟨0, some ("no values found in response: " ++ out.render), true⟩ := by
  rcases hempty with hm | ⟨mr0, mrest, hm, hv⟩
  · simp only [RunQuery, hu, hc, hm]
  · simp only [RunQuery, hu, hc, hm, hv]

/-- C2 witness: a concrete client returning an empty result list;
RunQuery returns value 0 and the no-data error. -/
theorem c2_witness :
    RunQuery (fun _ => .ok ⟨[], "empty"⟩) (fun _ => .ok ["q"]) "q" =
      ⟨0, some ("no values found in response: " ++ "empty"), true⟩ :=
  c2_runQuery_no_data_error _ _ "q" ["q"] ⟨[], "empty"⟩ rfl rfl (Or.inl rfl)

/-- C4: for every query string that fails to unmarshal as a JSON array of
metric-data queries, RunQuery returns the non-nil unmarshaling error and
never issues the GetMetricData call. -/
theorem c4_runQuery_unmarshal_error_no_call
    (client : CWClient) (unmarshal : String → Except String (List MetricDataQuery))
    (query : String) (e : String)
    (hu : unmarshal query = .error e) :
    RunQuery client unmarshal query =
      ⟨0, some ("error unmarshaling query: " ++ e), false⟩ := by
  simp only [RunQuery, hu]

/-- C4 witness: a concrete unmarshal failure; the result carries the
unmarshaling error and records that the backend was not called. -/
theorem c4_witness :
    RunQuery (fun _ => .ok ⟨[⟨[some 1]⟩], "out"⟩) (fun _ => .error "invalid JSON") "not json" =
      ⟨0, some ("error unmarshaling query: " ++ "invalid JSON"), false⟩ :=
  c4_runQuery_unmarshal_error_no_call _ _ "not json" "invalid JSON" rfl

/-- C10: whenever RunQuery returns a non-nil error, whatever its kind,
the accompanying float64 value is exactly 0. -/
theorem c10_runQuery_error_implies_zero
    (client : CWClient) (unmarshal : String → Except String (List MetricDataQuery))
    (query : String)
    (h : (RunQuery client unmarshal query).err ≠ none) :
    (RunQuery client unmarshal query).value = 0 := by
  rcases hu : unmarshal query with e | cq
  · simp [RunQuery, hu]
  · rcases hc : client ⟨cq, some 20⟩ with e | res
    · simp [RunQuery, hu, hc]
    · rcases hm : res.MetricDataResults with _ | ⟨mr0, mrest⟩
      · simp [RunQuery, hu, hc, hm]
      · rcases hv : mr0.Values with _ | ⟨v0, vrest⟩
        · simp [RunQuery, hu, hc, hm, hv]
        · simp [RunQuery, hu, hc, hm, hv] at h

/-- C10 witness: at a concrete backend request failure the error is
non-nil and the value is 0. -/
theorem c10_witness :
    (RunQuery (fun _ => .error (.generic "timeout")) (fun _ => .ok []) "q").value = 0 :=
  c10_runQuery_error_implies_zero _ _ "q" (by simp [RunQuery])

/-- C3: IsOnline returns (true, nil) exactly when the probe GetMetricData
call succeeds or fails with an AWS request failure of HTTP status 400,
and for every other failure, including any error that is not an AWS
request failure, it returns false with a non-nil error. -/
theorem c3_isOnline_reachability (client : CWClient) :
    (IsOnline client = (true, none) ↔
      ((∃ out, client ⟨[], none⟩ = .ok out) ∨
        ∃ m, client ⟨[], none⟩ = .error (.requestFailure statusBadRequest m)))
  ∧ (∀ e, client ⟨[], none⟩ = .error e →
      (∀ m, e ≠ .requestFailure statusBadRequest m) →
      (IsOnline client).1 = false ∧ (IsOnline client).2 ≠ none) := by
  constructor
  · rcases hc : client ⟨[], none⟩ with e | out
    · rcases e with ⟨code, m⟩ | m
      · by_cases hcode : code = statusBadRequest
        · subst hcode
          simp [IsOnline, hc]
        · simp [IsOnline, hc, hcode]
      · simp [IsOnline, hc]
    · simp [IsOnline, hc]
  · intro e hc hne
    rcases e with ⟨code, m⟩ | m
    · have hcode : code ≠ statusBadRequest := by
        intro hcontra
        exact hne m (by rw [hcontra])
      simp [IsOnline, hc, hcode]
    · simp [IsOnline, hc]

/-- C3 witness: a probe failing with a request failure of status 400 is
online, and one failing with status 403 is offline with a non-nil
error. -/
theorem c3_witness :
    IsOnline (fun _ => .error (.requestFailure 400 "bad request")) = (true, none) ∧
    (IsOnline (fun _ => .error (.requestFailure 403 "forbidden"))).1 = false ∧
    (IsOnline (fun _ => .error (.requestFailure 403 "forbidden"))).2 ≠ none :=
  ⟨(c3_isOnline_reachability _).1.mpr (Or.inr ⟨"bad request", rfl⟩),
    (c3_isOnline_reachability _).2 (.requestFailure 403 "forbidden") rfl
      (by intro m hcontra; simp [statusBadRequest] at hcontra)⟩

/-- C8: NewCloudWatchProvider fails exactly when the metric interval
fails to parse as a duration, and the session creation error never
influences the outcome, because in the source it is overwritten by the
result of time.ParseDuration before the constructor returns. -/
theorem c8_constructor_ignores_session_error
    (sessionErr : Option String) (parseDuration : Except String Int) (address : String) :
    (exceptIsOk (NewCloudWatchProvider sessionErr parseDuration address) =
      exceptIsOk parseDuration)
  ∧ ∀ sessionErr2,
      NewCloudWatchProvider sessionErr parseDuration address =
        NewCloudWatchProvider sessionErr2 parseDuration address := by
  rcases parseDuration with e | md
  · exact ⟨rfl, fun _ => rfl⟩
  · exact ⟨rfl, fun _ => rfl⟩

/-- C9: the region configured by NewCloudWatchProvider is the address
with every leading character of the set m o n i t r g dot removed and
every trailing character of the set a m z o n w s c dot removed, a
character-set trim and not a prefix or suffix strip; consequently for
the address of region me-south-1 the derived region e-south-1 is a
strict trailing substring of the true region. -/
theorem c9_region_charset_trimming :
    (∀ sessionErr md address,
      NewCloudWatchProvider sessionErr (.ok md) address =
        .ok { region := claimRegion address
              endpoint := address
              maxRetries := cloudWatchMaxRetries
              startDelta := cloudWatchStartDeltaMultiplierOnMetricInterval * md })
  ∧ regionOf "monitoring.me-south-1.amazonaws.com" = "e-south-1"
  ∧ "me-south-1".data = 'm' :: "e-south-1".data := by
  have hL : (fun c => decide (c ∈ "monitoring.".data)) =
      (fun c => decide (c ∈ leadingSet)) := by
    funext c
    apply decide_eq_decide.mpr
    show c ∈ ['m', 'o', 'n', 'i', 't', 'o', 'r', 'i', 'n', 'g', '.'] ↔ c ∈ leadingSet
    simp only [leadingSet, List.mem_cons, List.not_mem_nil, or_false]
    tauto
  have hR : (fun c => decide (c ∈ ".amazonaws.com".data)) =
      (fun c => decide (c ∈ trailingSet)) := by
    funext c
    apply decide_eq_decide.mpr
    show c ∈ ['.', 'a', 'm', 'a', 'z', 'o', 'n', 'a', 'w', 's', '.', 'c', 'o', 'm'] ↔
      c ∈ trailingSet
    simp only [trailingSet, List.mem_cons, List.not_mem_nil, or_false]
    tauto
  have hregion : ∀ address, regionOf address = claimRegion address := by
    intro address
    simp only [regionOf, goTrimLeft, goTrimRight, claimRegion, hL, hR]
  refine ⟨?_, ?_, ?_⟩
  · intro sessionErr md address
    simp only [NewCloudWatchProvider, hregion]
  · decide
  · decide

/-- C5: provided the configured max weight is at most 100 and the router
reports weights summing to 100, one tick keeps the primary and canary
weights summing to 100; and from the Progressing phase, when no new
drift resets the rollout and the tick does not roll back to Failed, the
canary weight never decreases. -/
theorem c5_weights_sum_and_monotone
    (cfg : Sched.Config) (st : Sched.Status) (r : Sched.Routes) (o : Sched.Obs)
    (hmax : cfg.maxWeight ≤ 100)
    (hsum : r.primaryWeight + r.canaryWeight = 100) :
    ((Sched.tick cfg st r o).routes.primaryWeight +
        (Sched.tick cfg st r o).routes.canaryWeight = 100)
  ∧ (st.phase = .Progressing → o.drift = false →
      (Sched.tick cfg st r o).status.phase ≠ .Failed →
      r.canaryWeight ≤ (Sched.tick cfg st r o).routes.canaryWeight) := by
  rcases st with ⟨ph, fc⟩
  rcases r with ⟨pw, cw, mir⟩
  rcases o with ⟨dr, cp⟩
  cases dr <;> cases cp <;> cases ph <;>
    simp_all [Sched.tick, Sched.resettable] <;>
    split_ifs <;> simp_all <;> omega

/-- C5 witness: a mid-rollout Progressing tick at weights 80 and 20 with
step 10 and max 50; the sum stays 100 and the canary weight does not
decrease. -/
theorem c5_witness :
    ((Sched.tick ⟨10, 50, 10, false, false⟩ ⟨.Progressing, 0⟩ ⟨80, 20, false⟩
        ⟨false, true⟩).routes.primaryWeight +
      (Sched.tick ⟨10, 50, 10, false, false⟩ ⟨.Progressing, 0⟩ ⟨80, 20, false⟩
        ⟨false, true⟩).routes.canaryWeight = 100)
  ∧ ((⟨.Progressing, 0⟩ : Sched.Status).phase = .Progressing →
      (⟨false, true⟩ : Sched.Obs).drift = false →
      (Sched.tick ⟨10, 50, 10, false, false⟩ ⟨.Progressing, 0⟩ ⟨80, 20, false⟩
        ⟨false, true⟩).status.phase ≠ .Failed →
      (⟨80, 20, false⟩ : Sched.Routes).canaryWeight ≤
        (Sched.tick ⟨10, 50, 10, false, false⟩ ⟨.Progressing, 0⟩ ⟨80, 20, false⟩
          ⟨false, true⟩).routes.canaryWeight) :=
  c5_weights_sum_and_monotone ⟨10, 50, 10, false, false⟩ ⟨.Progressing, 0⟩
    ⟨80, 20, false⟩ ⟨false, true⟩ (by decide) (by decide)

/-- C6: whenever SkipAnalysis is set and the rollout is Progressing, the
next tick without a new drift moves the phase directly to Promoting and
evaluates no metric checks. -/
theorem c6_skip_analysis_jumps_to_promoting
    (cfg : Sched.Config) (st : Sched.Status) (r : Sched.Routes) (o : Sched.Obs)
    (hskip : cfg.skipAnalysis = true)
    (hph : st.phase = .Progressing)
    (hdrift : o.drift = false) :
    (Sched.tick cfg st r o).status.phase = .Promoting ∧
    (Sched.tick cfg st r o).checksEvaluated = false := by
  simp [Sched.tick, hskip, hph, hdrift]

/-- C6 witness: a concrete Progressing status with SkipAnalysis set moves
to Promoting with no checks evaluated. -/
theorem c6_witness :
    (Sched.tick ⟨10, 50, 10, false, true⟩ ⟨.Progressing, 3⟩ ⟨70, 30, false⟩
      ⟨false, false⟩).status.phase = .Promoting ∧
    (Sched.tick ⟨10, 50, 10, false, true⟩ ⟨.Progressing, 3⟩ ⟨70, 30, false⟩
      ⟨false, false⟩).checksEvaluated = false :=
  c6_skip_analysis_jumps_to_promoting ⟨10, 50, 10, false, true⟩ ⟨.Progressing, 3⟩
    ⟨70, 30, false⟩ ⟨false, false⟩ rfl rfl rfl

/-- C7: for a mirroring-enabled target with step 10 and max weight at
least 10, the first Progressing tick after the drift reset sets
mirrored true while keeping the weights at 100 primary and 0 canary, and
the next tick with passing checks clears mirrored and sets the first
real step of 10 canary and 90 primary. -/
theorem c7_mirroring_prelude_then_first_step
    (cfg : Sched.Config)
    (hm : cfg.mirror = true)
    (hskip : cfg.skipAnalysis = false)
    (hstep : cfg.stepWeight = 10)
    (hmax : 10 ≤ cfg.maxWeight) :
    Sched.tick cfg ⟨.Progressing, 0⟩ ⟨100, 0, false⟩ ⟨false, true⟩ =
      ⟨⟨.Progressing, 0⟩, ⟨100, 0, true⟩, true⟩ ∧
    Sched.tick cfg ⟨.Progressing, 0⟩ ⟨100, 0, true⟩ ⟨false, true⟩ =
      ⟨⟨.Progressing, 0⟩, ⟨90, 10, false⟩, true⟩ := by
  constructor
  · simp [Sched.tick, hm, hskip]
  · simp [Sched.tick, hm, hskip, hstep]
    omega

/-- C7 witness: with the concrete mirroring configuration of step 10 and
max 50 the two ticks produce the mirroring prelude and then the 90 10
split. -/
theorem c7_witness :
    Sched.tick ⟨10, 50, 10, true, false⟩ ⟨.Progressing, 0⟩ ⟨100, 0, false⟩ ⟨false, true⟩ =
      ⟨⟨.Progressing, 0⟩, ⟨100, 0, true⟩, true⟩ ∧
    Sched.tick ⟨10, 50, 10, true, false⟩ ⟨.Progressing, 0⟩ ⟨100, 0, true⟩ ⟨false, true⟩ =
      ⟨⟨.Progressing, 0⟩, ⟨90, 10, false⟩, true⟩ :=
  c7_mirroring_prelude_then_first_step ⟨10, 50, 10, true, false⟩ rfl rfl rfl (by decide)

end Flagger
